import Mathlib

/-!
Verification of the Exact-Science data-product connector
(`metadata-ingestion/src/datahub/api/entities/dataproduct/es_dataproduct.py`).

The file shallowly embeds the connector: the pydantic data model becomes Lean
structures, the Python string machinery the connector relies on (`str`,
`urllib.parse.urlparse(...).path`, `str.strip`, `str.split`, `re.sub` with the
pattern of non-word runs) becomes executable Lean functions, and the lazy
generator `generate_mcp` becomes a function from the parsed model, the
catalog-existence oracle and the clock reading to an optional list of change
records (`none` models an uncaught normalization failure, in which case no
list of records is produced).
-/

namespace EsDataProduct

/-! ## Python value rendering (`str`) -/

/-- A Python value as it appears among the stringifiable entries of a pydantic
`.dict(by_alias=True)` result: a string or a list of strings. -/
inductive PyValue where
  | pstr (s : String)
  | plist (xs : List String)
  deriving DecidableEq

/-- Python `repr` of a `str`, restricted to the quote-selection rule: single
quotes, unless the string contains a single quote and no double quote, in
which case double quotes.  (Escaping of backslashes and control characters is
elided; the connector only ever renders plain identifier-like strings.) -/
def pyReprStr (s : String) : String :=
  if s.data.contains (Char.ofNat 39) && !s.data.contains (Char.ofNat 34) then
    "\"" ++ s ++ "\""
  else
    String.mk (Char.ofNat 39 :: s.data) ++ String.mk [Char.ofNat 39]

/-- Join strings with the separator `", "`. -/
def joinCommaSep : List String → String
  | [] => ""
  | [x] => x
  | x :: rest => x ++ ", " ++ joinCommaSep rest

/-- Python `str` of a list of strings: `str(["a", "b"]) = "['a', 'b']"`. -/
def pyStrList (xs : List String) : String :=
  "[" ++ joinCommaSep (xs.map pyReprStr) ++ "]"

/-- Python `str` of a bool: `"True"` / `"False"`. -/
def pyStrBool (b : Bool) : String :=
  if b then "True" else "False"

/-- Python `str` of a `PyValue` (`str` is the identity on strings). -/
def pyStr : PyValue → String
  | .pstr s => s
  | .plist xs => pyStrList xs

/-- Python `str.lower()` on ASCII input: lowercase every ASCII letter. -/
def asciiLower (s : String) : String :=
  String.mk (s.data.map fun c => if c.isUpper then Char.ofNat (c.toNat + 32) else c)

/-- Python `s.split(sep)` for a single-character separator: split at every
occurrence; the empty string yields `[""]`, i.e. `[[]]`. -/
def splitOnChar (sep : Char) : List Char → List (List Char)
  | [] => [[]]
  | c :: rest =>
    if c = sep then [] :: splitOnChar sep rest
    else
      match splitOnChar sep rest with
      | [] => [[c]]
      | h :: t => (c :: h) :: t

/-- Python `s.split(sep)` for a single-character separator, on strings. -/
def pySplit (sep : Char) (s : String) : List String :=
  (splitOnChar sep s.data).map String.mk

/-- Python `s.replace(old, new)` for single characters. -/
def pyReplaceChar (old new : Char) (s : String) : String :=
  String.mk (s.data.map fun c => if c = old then new else c)

/-- Whether one character list starts with another. -/
def charsStartWith : List Char → List Char → Bool
  | [], _ => true
  | _ :: _, [] => false
  | p :: ps, c :: cs => p = c && charsStartWith ps cs

/-- Python `s.startswith(pre)`. -/
def pyStartsWith (pre s : String) : Bool :=
  charsStartWith pre.data s.data

/-- Python `s.endswith(suffix)`. -/
def pyEndsWith (suffix s : String) : Bool :=
  charsStartWith suffix.data.reverse s.data.reverse

/-- The pydantic v1 bool validator on string input: lowercase the string and
look it up among the accepted true/false spellings; any other string is a
validation error (`none`). -/
def pydanticBoolValidator (s : String) : Option Bool :=
  let l := asciiLower s
  if l = "0" ∨ l = "off" ∨ l = "f" ∨ l = "false" ∨ l = "n" ∨ l = "no" then
    some false
  else if l = "1" ∨ l = "on" ∨ l = "t" ∨ l = "true" ∨ l = "y" ∨ l = "yes" then
    some true
  else
    none

/-! ## Python URL parsing (`urllib.parse.urlparse(...).path`)

Modelled from the spec: URI-path extraction ("attempt to interpret `raw` as a
URI; take its path component"), realised by the Python standard library
`urlparse`, which is an external collaborator not contained in the sources.
The model follows the documented stdlib algorithm: strip a leading
`scheme:` prefix when the prefix is a valid scheme, strip a `//netloc` part
up to the next `/`, `?` or `#` (failing — `ValueError`, modelled as `none` —
on an unbalanced IPv6 bracket), cut off the fragment, the query and the
parameters, and return what remains as the path. -/

/-- Split a character list at the first character satisfying `p`: returns the
prefix before it and the remainder starting with it. -/
def splitAtFirst (p : Char → Bool) : List Char → List Char × List Char
  | [] => ([], [])
  | c :: rest =>
    if p c then ([], c :: rest)
    else
      let (a, b) := splitAtFirst p rest
      (c :: a, b)

/-- Characters allowed in a URL scheme after the initial letter. -/
def isSchemeChar (c : Char) : Bool :=
  c.isAlpha || c.isDigit || c = '+' || c = '-' || c = '.'

/-- Remove a leading `scheme:` when the text before the first `:` is a
non-empty valid scheme (letter first, scheme characters throughout). -/
def removeScheme (cs : List Char) : List Char :=
  let (pre, post) := splitAtFirst (fun c => c = ':') cs
  match post with
  | ':' :: rest =>
    match pre with
    | [] => cs
    | c0 :: _ => if c0.isAlpha && pre.all isSchemeChar then rest else cs
  | _ => cs

/-- Remove a leading `//netloc` part (up to the next `/`, `?` or `#`).
Returns `none` — the `ValueError` raised for an invalid IPv6 URL — when the
netloc contains `[` without `]` or `]` without `[`. -/
def splitNetloc (cs : List Char) : Option (List Char) :=
  match cs with
  | '/' :: '/' :: rest =>
    let (netloc, remainder) := splitAtFirst (fun c => c = '/' || c = '?' || c = '#') rest
    if (netloc.contains '[' && !netloc.contains ']')
        || (netloc.contains ']' && !netloc.contains '[') then
      none
    else
      some remainder
  | _ => some cs

/-- Keep only what precedes the first occurrence of `stop`. -/
def dropFrom (stop : Char) (cs : List Char) : List Char :=
  (splitAtFirst (fun c => c = stop) cs).1

/-- Drop the `;params` suffix of the last path segment, as `urlparse` does on
the path produced by `urlsplit` (a `;` in an earlier segment is untouched). -/
def dropParams (cs : List Char) : List Char :=
  if cs.contains '/' then
    let rev := cs.reverse
    let (revLast, revInit) := splitAtFirst (fun c => c = '/') rev
    revInit.reverse ++ dropFrom ';' revLast.reverse
  else
    dropFrom ';' cs

/-- Python `urllib.parse.urlparse(url).path`, or `none` for the `ValueError` raised
on an invalid IPv6 netloc. -/
def urlparsePath (url : String) : Option String := do
  let cs := removeScheme url.data
  let cs ← splitNetloc cs
  let cs := dropFrom '#' cs
  let cs := dropFrom '?' cs
  let cs := dropParams cs
  pure (String.mk cs)

/-! ## Python string sanitizers used by the connector -/

/-- Python `s.strip("/")`: remove leading and trailing `/` characters. -/
def stripSlashes (s : String) : String :=
  String.mk (((s.data.dropWhile (fun c => c = '/')).reverse.dropWhile
    (fun c => c = '/')).reverse)

/-- A word character in the sense of the regex class `\w` on ASCII input:
a letter, a digit or `_`. -/
def isWordChar (c : Char) : Bool :=
  c.isAlphanum || c = '_'

/-- Python `re.sub(r"\W+", "_", s)` on a character list: every maximal run of
non-word characters becomes a single `_`.  The boolean records whether the
scan stands inside a non-word run whose `_` was already emitted. -/
def collapseNonWordGo : Bool → List Char → List Char
  | _, [] => []
  | inRun, c :: rest =>
    if isWordChar c then c :: collapseNonWordGo false rest
    else if inRun then collapseNonWordGo true rest
    else '_' :: collapseNonWordGo true rest

/-- Python `re.sub(r"\W+", "_", s)` on a character list. -/
def collapseNonWordRuns (cs : List Char) : List Char :=
  collapseNonWordGo false cs

/-- Python `re.sub(r"\W+", "_", s)` on a string. -/
def reSubNonWord (s : String) : String :=
  String.mk (collapseNonWordRuns s.data)

/-! ## URN builders (external collaborator `datahub.emitter.mce_builder`)

Modelled from the spec: the catalog identifier grammar is the fixed template
`urn:li:<entityType>:<value>`, except dataset identifiers, which additionally
encode platform and environment. -/

/-- Modelled from the spec: the domain identifier template
(`make_domain_urn`, not contained in the sources). -/
def make_domain_urn (domain : String) : String :=
  "urn:li:domain:" ++ domain

/-- Modelled from the spec: the glossary-term identifier template
(`make_term_urn`, not contained in the sources). -/
def make_term_urn (term : String) : String :=
  "urn:li:glossaryTerm:" ++ term

/-- Modelled from the spec: the user identifier template (`make_user_urn`,
not contained in the sources); an already user-qualified identifier is kept. -/
def make_user_urn (username : String) : String :=
  if pyStartsWith "urn:li:corpuser:" username then username
  else "urn:li:corpuser:" ++ username

/-- Modelled from the spec: the owner identifier template (`make_owner_urn`
with owner type `USER`, not contained in the sources). -/
def make_owner_urn (id : String) : String :=
  "urn:li:corpuser:" ++ id

/-- Modelled from the spec: the data-platform identifier template
(`make_data_platform_urn`, not contained in the sources). -/
def make_data_platform_urn (platform : String) : String :=
  "urn:li:dataPlatform:" ++ platform

/-- Modelled from the spec: the dataset identifier template
(`make_dataset_urn`, not contained in the sources), the platform-and-
environment encoded variant of the catalog grammar. -/
def make_dataset_urn (platform name env : String) : String :=
  "urn:li:dataset:(" ++ make_data_platform_urn platform ++ "," ++ name ++ ","
    ++ env ++ ")"

/-! ## The parsed vendor data model (the pydantic models of the source) -/

/-- Source `_EsOutputPortsDetails`: the platform-specific locator of one output port. -/
structure _EsOutputPortsDetails where
  catalog : String
  schema_ : String
  table : String
  env : String
  deriving DecidableEq

/-- Source `_EsOutputPorts`: one output-port descriptor. -/
structure _EsOutputPorts where
  type : String
  description : String
  details : _EsOutputPortsDetails
  deriving DecidableEq

/-- Source `get_fully_qualified_name`: `catalog.schema.table`. -/
def _EsOutputPorts.get_fully_qualified_name (op : _EsOutputPorts) : String :=
  op.details.catalog ++ "." ++ op.details.schema_ ++ "." ++ op.details.table

/-- Source `get_urn`: the dataset identifier of the port, on platform `databricks`. -/
def _EsOutputPorts.get_urn (op : _EsOutputPorts) : String :=
  make_dataset_urn "databricks" op.get_fully_qualified_name op.details.env

/-- Source `_EsSchemaProperty`: a basic schema-property entry of the vendor
`properties` map (type and description). -/
structure _EsSchemaProperty where
  type : String := ""
  description : String := ""
  deriving DecidableEq

/-- Source `_EsSchemaXProperty`: the extended per-property entry of the vendor
`x-context` map. -/
structure _EsSchemaXProperty where
  property_uri : String := ""
  relation_type : String := ""
  required : Bool := false
  is_primary_id : Bool := false
  compliance_requirements : List String := []
  transformations : List String := []
  deriving DecidableEq

/-- Source `EsSchemaProperty`: the normalized (joined) schema property.  The two
formerly list-valued fields are single strings here, and the two boolean
flags are booleans again after pydantic re-validates their string forms. -/
structure EsSchemaProperty where
  name : String := ""
  description : String := ""
  type : String := ""
  property_uri : String := ""
  relation_type : String := ""
  required : Bool := false
  is_primary_id : Bool := false
  compliance_requirements : String := ""
  transformations : String := ""
  deriving DecidableEq

/-- Source `get_term`: the URI path of `property_uri` with leading and trailing
slashes stripped; on a `ValueError` from URL parsing, the raw field verbatim. -/
def EsSchemaProperty.get_term (p : EsSchemaProperty) : String :=
  match urlparsePath p.property_uri with
  | some path => stripSlashes path
  | none => p.property_uri

/-- Source `get_term_name`: the last `/`-separated segment of the term path
(`split` never returns an empty list, so the default is never taken). -/
def EsSchemaProperty.get_term_name (p : EsSchemaProperty) : String :=
  (pySplit '/' p.get_term).getLastD ""

/-- Source `get_term_browse_path`: all `/`-separated segments but the last. -/
def EsSchemaProperty.get_term_browse_path (p : EsSchemaProperty) : List String :=
  (pySplit '/' p.get_term).dropLast

/-- Source `get_term_urn`: the glossary-term identifier, embedding the whole term
path with `/` replaced by `_`. -/
def EsSchemaProperty.get_term_urn (p : EsSchemaProperty) : String :=
  make_term_urn (pyReplaceChar '/' '_' p.get_term)

/-- Source `_EsSchema`: the optional schema block, two parallel maps modelled as
insertion-ordered association lists. -/
structure _EsSchema where
  properties : List (String × _EsSchemaProperty) := []
  x_context : List (String × _EsSchemaXProperty) := []
  deriving DecidableEq

/-- Source `_EsDataProduct`: the top-level parsed vendor record. -/
structure _EsDataProduct where
  data_product_id : String
  name : String
  description : String
  version : String
  domain : String
  data_alignment_type : String
  source_systems : List String
  processing : String
  framework : String
  data_contract : String
  slas : String
  use_cases : List String
  subject_matter_experts : List String
  country_of_origin : List String
  data_classification : String
  compliance_requirements : List String
  acceptable_use : String
  created_by : String
  last_modified : String
  update_frequency : String
  output_ports : List _EsOutputPorts
  schema_ : Option _EsSchema := none
  deriving DecidableEq

/-- Source `get_data_product_urn`: URI path of `data_product_id` with outer slashes
stripped (raw field verbatim on a parse failure), non-word runs collapsed to
single underscores, under the data-product identifier template. -/
def _EsDataProduct.get_data_product_urn (m : _EsDataProduct) : String :=
  let tmp :=
    match urlparsePath m.data_product_id with
    | some path => stripSlashes path
    | none => m.data_product_id
  "urn:li:dataProduct:" ++ reSubNonWord tmp

/-- Source `get_data_product_dataset_urns`: the dataset identifier of each port. -/
def _EsDataProduct.get_data_product_dataset_urns (m : _EsDataProduct) :
    List String :=
  m.output_ports.map _EsOutputPorts.get_urn

/-- Source `get_data_product_display_name`. -/
def _EsDataProduct.get_data_product_display_name (m : _EsDataProduct) : String :=
  m.name

/-- Source `get_data_product_description`. -/
def _EsDataProduct.get_data_product_description (m : _EsDataProduct) : String :=
  m.description

/-- Source `get_data_product_domain`. -/
def _EsDataProduct.get_data_product_domain (m : _EsDataProduct) : String :=
  m.domain

/-- Source `get_data_product_domain_urn`. -/
def _EsDataProduct.get_data_product_domain_urn (m : _EsDataProduct) : String :=
  make_domain_urn m.get_data_product_domain

/-- Source `get_data_product_owners`: one owner identifier per subject-matter
expert. -/
def _EsDataProduct.get_data_product_owners (m : _EsDataProduct) : List String :=
  m.subject_matter_experts.map make_owner_urn

/-! ## Schema-property normalization (the join of `properties` and
`x-context`) -/

/-- One step of the join in `get_data_product_schema_properties`: build
`EsSchemaProperty(name=name, **__to_dict(v), **__to_dict(x))`.  The helper
`__to_dict` renders every field value with `str` (the identity on the string
fields, `"True"`/`"False"` on the booleans, the Python list rendering on the
two list fields), and the pydantic constructor then re-validates: the string
fields take the strings verbatim and the two boolean fields pass the rendered
strings back through the bool validator (`none` models a validation error). -/
def joinProperty (name : String) (v : _EsSchemaProperty)
    (x : _EsSchemaXProperty) : Option EsSchemaProperty := do
  let required ← pydanticBoolValidator (pyStrBool x.required)
  let is_primary_id ← pydanticBoolValidator (pyStrBool x.is_primary_id)
  pure
    { name := name
      description := v.description
      type := v.type
      property_uri := x.property_uri
      relation_type := x.relation_type
      required := required
      is_primary_id := is_primary_id
      compliance_requirements := pyStrList x.compliance_requirements
      transformations := pyStrList x.transformations }

/-- The comprehension of `get_data_product_schema_properties`: walk the
`properties` map in insertion order; for each name look the annotation map up
by the same key (`none` models the uncaught `KeyError` of
`self.schema_.x_context[name]`) and join the two entries.  No partial list
survives a failure. -/
def joinAll (x_context : List (String × _EsSchemaXProperty)) :
    List (String × _EsSchemaProperty) → Option (List EsSchemaProperty)
  | [] => some []
  | (name, v) :: rest =>
    match x_context.lookup name with
    | none => none
    | some x =>
      match joinProperty name v x with
      | none => none
      | some p =>
        match joinAll x_context rest with
        | none => none
        | some ps => some (p :: ps)

/-- Source `get_data_product_schema_properties`: the empty list when the schema
block is absent, otherwise the join of the two maps. -/
def _EsDataProduct.get_data_product_schema_properties (m : _EsDataProduct) :
    Option (List EsSchemaProperty) :=
  match m.schema_ with
  | none => some []
  | some s => joinAll s.x_context s.properties

/-! ## Serialization and the display-patched copies -/

/-- The result of `p.dict(by_alias=True)` on a normalized schema property:
each field under its alias key. -/
structure EsSchemaPropertyDict where
  name : String
  description : String
  type : String
  propertyUri : String
  relationType : String
  required : Bool
  isPrimaryId : Bool
  complianceRequirements : String
  transformations : String
  deriving DecidableEq

/-- Serialization `p.dict(by_alias=True)` of a normalized schema property. -/
def EsSchemaProperty.dict_by_alias (p : EsSchemaProperty) :
    EsSchemaPropertyDict :=
  { name := p.name
    description := p.description
    type := p.type
    propertyUri := p.property_uri
    relationType := p.relation_type
    required := p.required
    isPrimaryId := p.is_primary_id
    complianceRequirements := p.compliance_requirements
    transformations := p.transformations }

/-- The object produced by
`p.copy(update={"propertyUri": link})`: pydantic v1 `copy` does not
validate; it stores the update under the given key, so the copy keeps the
original `property_uri` attribute and additionally carries the update under
the alias key `"propertyUri"`. -/
structure EsSchemaPropertyCopied where
  base : EsSchemaProperty
  extra_propertyUri : String
  deriving DecidableEq

/-- Copy `p.copy(update={"propertyUri": link})`. -/
def EsSchemaProperty.copy_update_propertyUri (p : EsSchemaProperty)
    (link : String) : EsSchemaPropertyCopied :=
  { base := p, extra_propertyUri := link }

/-- Serialization `c.dict(by_alias=True)` of a patched copy: the aliased fields are
rendered first, and the extra `"propertyUri"` entry, iterated last, lands on
the same output key and overwrites the original value. -/
def EsSchemaPropertyCopied.dict_by_alias (c : EsSchemaPropertyCopied) :
    EsSchemaPropertyDict :=
  { c.base.dict_by_alias with propertyUri := c.extra_propertyUri }

/-- The patched copy of one normalized property: its URI field rewritten to
the hard-coded catalog link `http://localhost:9002/glossaryTerm/` followed by
the glossary-term identifier of the property. -/
def EsSchemaProperty.patched_copy (p : EsSchemaProperty) :
    EsSchemaPropertyCopied :=
  p.copy_update_propertyUri
    ("http://localhost:9002/glossaryTerm/" ++ p.get_term_urn)

/-- Source `get_data_product_schema_properties_patched`: the patched copy of every
normalized property. -/
def _EsDataProduct.get_data_product_schema_properties_patched
    (m : _EsDataProduct) : Option (List EsSchemaPropertyCopied) :=
  m.get_data_product_schema_properties.map fun props =>
    props.map EsSchemaProperty.patched_copy

/-! ## Custom properties -/

/-- The stringifiable entries of `self.dict(by_alias=True)` on the top-level
record, in pydantic field-declaration order.  The `outputPorts` and `schema`
entries hold nested submodel structures, not scalars or string lists; the
only consumer, the custom-properties comprehension below, filters both out by
key before applying `str`, so they are not carried here (their keys are kept
in `dict_by_alias_keys`). -/
def _EsDataProduct.dict_by_alias_stringifiable (m : _EsDataProduct) :
    List (String × PyValue) :=
  [ ("dataProductId", .pstr m.data_product_id),
    ("name", .pstr m.name),
    ("description", .pstr m.description),
    ("version", .pstr m.version),
    ("domain", .pstr m.domain),
    ("dataAlignmentType", .pstr m.data_alignment_type),
    ("sourceSystems", .plist m.source_systems),
    ("processing", .pstr m.processing),
    ("framework", .pstr m.framework),
    ("dataContract", .pstr m.data_contract),
    ("SLAs", .pstr m.slas),
    ("useCases", .plist m.use_cases),
    ("subjectMatterExperts", .plist m.subject_matter_experts),
    ("countryOfOrigin", .plist m.country_of_origin),
    ("dataClassification", .pstr m.data_classification),
    ("complianceRequirements", .plist m.compliance_requirements),
    ("acceptableUse", .pstr m.acceptable_use),
    ("createdBy", .pstr m.created_by),
    ("lastModified", .pstr m.last_modified),
    ("updateFrequency", .pstr m.update_frequency) ]

/-- Every key of `self.dict(by_alias=True)` on the top-level record, in
pydantic field-declaration order. -/
def _EsDataProduct.dict_by_alias_keys : List String :=
  [ "dataProductId", "name", "description", "version", "domain",
    "dataAlignmentType", "sourceSystems", "processing", "framework",
    "dataContract", "SLAs", "useCases", "subjectMatterExperts",
    "countryOfOrigin", "dataClassification", "complianceRequirements",
    "acceptableUse", "createdBy", "lastModified", "updateFrequency",
    "outputPorts", "schema" ]

/-- Source `get_data_product_custom_properties`: keep every dict entry whose key is
not `schema`, `outputPorts` or `dataProductId`, and render its value with
`str`.  (The `outputPorts` and `schema` entries the source filter also drops
are absent from `dict_by_alias_stringifiable` to begin with, see there.) -/
def _EsDataProduct.get_data_product_custom_properties (m : _EsDataProduct) :
    List (String × String) :=
  (m.dict_by_alias_stringifiable.filter fun kv =>
      ¬ (kv.1 = "schema" ∨ kv.1 = "outputPorts" ∨ kv.1 = "dataProductId")).map
    fun kv => (kv.1, pyStr kv.2)

/-! ## Change records and the generator -/

/-- An audit stamp (`AuditStampClass`). -/
structure AuditStamp where
  time : Nat
  actor : String
  message : String
  deriving DecidableEq

/-- Source `_mint_auditstamp`: stamps the current clock reading (milliseconds),
the fixed actor and the given message.  The clock reading is an explicit
argument of the embedding. -/
def _EsDataProduct._mint_auditstamp (_m : _EsDataProduct) (now : Nat)
    (message : String) : AuditStamp :=
  { time := now, actor := "urn:li:corpuser:datahub", message := message }

/-- One schema field of a schema-metadata aspect (`SchemaFieldClass`): the
field path, the empty description, the native data type, and a glossary-term
association list with its audit stamp.  The field type is the constant null
type in the source and is not carried. -/
structure SchemaFieldRec where
  fieldPath : String
  description : String
  nativeDataType : String
  termUrns : List String
  auditStamp : AuditStamp
  deriving DecidableEq

/-- A change record, one constructor per yield site of the generator. -/
inductive ChangeRecord where
  /-- A domain-creation record: `DomainPropertiesClass` on the domain. -/
  | domainProperties (entityUrn : String) (name : String)
  /-- Aspect `DatasetPropertiesClass` on a dataset. -/
  | datasetProperties (entityUrn : String) (name : String)
      (customProperties : List (String × String))
  /-- Aspect `SchemaMetadataClass` on a dataset. -/
  | schemaMetadata (entityUrn : String) (schemaName : String)
      (platform : String) (version : Nat) (hash : String) (rawSchema : String)
      (fields : List SchemaFieldRec)
  /-- Aspect `DataProductPropertiesClass` on the data product. -/
  | dataProductProperties (entityUrn : String) (name : String)
      (description : String) (assets : List String)
      (customProperties : List (String × String))
  /-- Source `DomainsClass`: a domain association on any entity. -/
  | domains (entityUrn : String) (domains : List String)
  /-- Source `OwnershipClass`: the owner list, each owner with its ownership type. -/
  | ownership (entityUrn : String) (owners : List (String × String))
  /-- Source `StatusClass`. -/
  | status (entityUrn : String) (removed : Bool)
  /-- The raw `GenericAspectClass` change proposal holding the serialized
  patched schema properties under one top-level JSON key. -/
  | genericSchemaAspect (entityType : String) (entityUrn : String)
      (changeType : String) (aspectName : String) (contentType : String)
      (topLevelKey : String) (value : List EsSchemaPropertyDict)
  /-- The glossary-term `MetadataChangeEventClass`: one snapshot carrying the
  term info aspect and the browse-paths aspect. -/
  | glossaryTermEvent (urn : String) (name : String) (definition : String)
      (termSource : String) (browsePaths : List String)
  deriving DecidableEq

/-- The kind of a change record, used to state ordering claims. -/
inductive RecordKind where
  | domainCreation
  | datasetProps
  | schemaMeta
  | dataProductProps
  | domainAssoc
  | ownershipRec
  | statusRec
  | schemaAspect
  | termEvent
  deriving DecidableEq

/-- The kind of each change record. -/
def ChangeRecord.kind : ChangeRecord → RecordKind
  | .domainProperties _ _ => .domainCreation
  | .datasetProperties _ _ _ => .datasetProps
  | .schemaMetadata _ _ _ _ _ _ _ => .schemaMeta
  | .dataProductProperties _ _ _ _ _ => .dataProductProps
  | .domains _ _ => .domainAssoc
  | .ownership _ _ => .ownershipRec
  | .status _ _ => .statusRec
  | .genericSchemaAspect _ _ _ _ _ _ _ => .schemaAspect
  | .glossaryTermEvent _ _ _ _ _ => .termEvent

/-- The placeholder text of a generated glossary-term definition and source. -/
def termPlaceholderText : String :=
  "*PUT THE DEFINITION HERE*, **you can use** MD markup language"

/-- Source `generate_domain_mcp_if_not_exists`: one domain-creation record when the
oracle does not know the domain identifier, nothing otherwise. -/
def _EsDataProduct.generate_domain_mcp_if_not_exists (m : _EsDataProduct)
    (exists_ : String → Bool) : List ChangeRecord :=
  let domain_urn := m.get_data_product_domain_urn
  if exists_ domain_urn then []
  else [.domainProperties domain_urn m.get_data_product_domain]

/-- The schema fields of a generated schema-metadata aspect: one field per
normalized schema property, carrying a glossary-term association to the term
identifier derived from the original (unpatched) property URI, stamped with
the clock reading. -/
def _EsDataProduct.schema_fields (m : _EsDataProduct) (now : Nat)
    (props : List EsSchemaProperty) : List SchemaFieldRec :=
  props.map fun prop =>
    { fieldPath := prop.name
      description := ""
      nativeDataType := prop.type
      termUrns := [prop.get_term_urn]
      auditStamp := m._mint_auditstamp now "json" }

/-- Source `generate_datasets_mcps_if_not_exists`: per output port whose dataset the
oracle does not know, a dataset-properties record and a schema-metadata
record; then, per normalized schema property whose term the oracle does not
know, a glossary-term event and a term-domain association record. -/
def _EsDataProduct.generate_datasets_mcps_if_not_exists (m : _EsDataProduct)
    (exists_ : String → Bool) (now : Nat) (props : List EsSchemaProperty) :
    List ChangeRecord :=
  (m.output_ports.flatMap fun dataset =>
    let dataset_urn := dataset.get_urn
    if exists_ dataset_urn then []
    else
      [ .datasetProperties dataset_urn dataset.get_fully_qualified_name
          m.get_data_product_custom_properties,
        .schemaMetadata dataset_urn
          ("schema_" ++ dataset.get_fully_qualified_name)
          (make_data_platform_urn "databricks") 0 "" ""
          (m.schema_fields now props) ])
  ++ props.flatMap fun prop =>
    let term_urn := prop.get_term_urn
    if exists_ term_urn then []
    else
      [ .glossaryTermEvent term_urn prop.get_term_name termPlaceholderText
          termPlaceholderText prop.get_term_browse_path,
        .domains term_urn [m.get_data_product_domain_urn] ]

/-- The trailing always-upsert records of `generate_mcp`: the data-product
properties, its domain association, its ownership, its status, and the raw
schema aspect serializing the display-patched properties. -/
def _EsDataProduct.generate_tail (m : _EsDataProduct)
    (props : List EsSchemaProperty) : List ChangeRecord :=
  [ .dataProductProperties m.get_data_product_urn
      m.get_data_product_display_name m.get_data_product_description
      m.get_data_product_dataset_urns
      m.get_data_product_custom_properties,
    .domains m.get_data_product_urn [m.get_data_product_domain_urn],
    .ownership m.get_data_product_urn
      (m.get_data_product_owners.map fun o => (make_user_urn o, "BUSINESS_OWNER")),
    .status m.get_data_product_urn false,
    .genericSchemaAspect "dataProduct" m.get_data_product_urn "UPSERT"
      "esDataProductSchema" "application/json" "esDataProductSchemaProperties"
      (props.map fun p => p.patched_copy.dict_by_alias) ]

/-- Source `generate_mcp`: the full generated sequence — the domain record when
absent, the dataset and glossary-term groups, then the five always-upsert
data-product records.  `none` models the uncaught normalization failure of
`get_data_product_schema_properties`, in which case no record list is
produced. -/
def _EsDataProduct.generate_mcp (m : _EsDataProduct) (exists_ : String → Bool)
    (now : Nat) : Option (List ChangeRecord) :=
  m.get_data_product_schema_properties.map fun props =>
    m.generate_domain_mcp_if_not_exists exists_
      ++ m.generate_datasets_mcps_if_not_exists exists_ now props
      ++ m.generate_tail props

/-! ## Record observers used to state the claims -/

/-- Whether a record is a domain-creation record (the domain-properties
aspect emitted for an absent domain). -/
def ChangeRecord.isDomainCreation : ChangeRecord → Bool
  | .domainProperties _ _ => true
  | _ => false

/-- Whether a record is a domain-association aspect. -/
def ChangeRecord.isDomainAssoc : ChangeRecord → Bool
  | .domains _ _ => true
  | _ => false

/-- The schema fields of a schema-metadata record, empty otherwise. -/
def ChangeRecord.schemaFields : ChangeRecord → List SchemaFieldRec
  | .schemaMetadata _ _ _ _ _ _ fields => fields
  | _ => []

/-- The serialized property list of the raw schema-aspect record. -/
def ChangeRecord.aspectPayload : ChangeRecord → Option (List EsSchemaPropertyDict)
  | .genericSchemaAspect _ _ _ _ _ _ v => some v
  | _ => none

/-- Whether a record is compatible with an absent schema block: schema
metadata carries no fields, the raw schema aspect carries an empty property
list, and no glossary-term event exists. -/
def ChangeRecord.emptySchemaShape : ChangeRecord → Bool
  | .schemaMetadata _ _ _ _ _ _ fields => fields.isEmpty
  | .genericSchemaAspect _ _ _ _ _ _ v => v.isEmpty
  | .glossaryTermEvent _ _ _ _ _ => false
  | _ => true

/-- Whether a record only uses glossary-term identities derived from the
original (unpatched) property URIs of `props`, and serializes exactly the
display-patched copies in the raw schema aspect. -/
def ChangeRecord.usesOriginalTermIdentities (props : List EsSchemaProperty) :
    ChangeRecord → Bool
  | .schemaMetadata _ _ _ _ _ _ fields =>
    fields.map SchemaFieldRec.termUrns
      == props.map fun p => [p.get_term_urn]
  | .glossaryTermEvent u _ _ _ _ =>
    props.any fun p => p.get_term_urn == u
  | .genericSchemaAspect _ _ _ _ _ _ v =>
    v == props.map fun p => p.patched_copy.dict_by_alias
  | _ => true

/-- Erase the wall-clock reading of a schema field's audit stamp. -/
def SchemaFieldRec.eraseStampTime (f : SchemaFieldRec) : SchemaFieldRec :=
  { f with auditStamp := { f.auditStamp with time := 0 } }

/-- Erase the wall-clock readings of a record (only schema-metadata records
carry audit stamps). -/
def ChangeRecord.eraseStampTimes : ChangeRecord → ChangeRecord
  | .schemaMetadata u n pf v h rs fields =>
    .schemaMetadata u n pf v h rs (fields.map SchemaFieldRec.eraseStampTime)
  | r => r

/-- Whether the patched copy of a property serializes with its URI field
equal to the catalog link carrying the full glossary-term identifier, leaves
every other serialized field unchanged, and keeps the original property
intact as its base. -/
def EsSchemaProperty.patchedDisplayCheck (p : EsSchemaProperty) : Bool :=
  (p.patched_copy.dict_by_alias ==
    { p.dict_by_alias with
        propertyUri := "http://localhost:9002/glossaryTerm/" ++ p.get_term_urn })
  && (p.patched_copy.base == p)

/-- Whether every record of a list satisfies a check (`List.all` with the
predicate first). -/
def recordsAll (p : ChangeRecord → Bool) (l : List ChangeRecord) : Bool :=
  l.all p

/-! ## Concrete sample inputs -/

/-- A normalized schema property whose annotation URI is the concrete example
of the specification. -/
def emailProp : EsSchemaProperty :=
  { property_uri := "https://ontology.org/terms/customer/email" }

/-- A concrete output port. -/
def samplePort : _EsOutputPorts :=
  { type := "table"
    description := "port"
    details := { catalog := "cat", schema_ := "sch", table := "tbl", env := "PROD" } }

/-- A concrete basic schema-property entry. -/
def sampleBasic : _EsSchemaProperty :=
  { type := "string", description := "the email" }

/-- A concrete extended schema-property entry whose URI path has two
segments. -/
def sampleX : _EsSchemaXProperty :=
  { property_uri := "https://ontology.org/terms/email"
    relation_type := "is"
    required := true
    is_primary_id := false
    compliance_requirements := ["GDPR"]
    transformations := ["hash"] }

/-- A concrete schema block with exactly one property. -/
def sampleSchema : _EsSchema :=
  { properties := [("email", sampleBasic)]
    x_context := [("email", sampleX)] }

/-- The normalized schema property resulting from joining `sampleBasic` and
`sampleX`. -/
def sampleJoined : EsSchemaProperty :=
  { name := "email"
    description := "the email"
    type := "string"
    property_uri := "https://ontology.org/terms/email"
    relation_type := "is"
    required := true
    is_primary_id := false
    compliance_requirements := "['GDPR']"
    transformations := "['hash']" }

/-- A concrete minimal valid document: one output port, one schema property
whose annotation URI path has two segments. -/
def sampleModel : _EsDataProduct :=
  { data_product_id := "https://example.com/products/foo bar"
    name := "Foo"
    description := "a product"
    version := "1"
    domain := "dom"
    data_alignment_type := "aligned"
    source_systems := ["sys"]
    processing := "batch"
    framework := "fw"
    data_contract := "contract"
    slas := "gold"
    use_cases := ["uc"]
    subject_matter_experts := ["alice"]
    country_of_origin := ["US"]
    data_classification := "internal"
    compliance_requirements := ["GDPR"]
    acceptable_use := "ok"
    created_by := "bob"
    last_modified := "2024-01-01"
    update_frequency := "daily"
    output_ports := [samplePort]
    schema_ := some sampleSchema }

/-- The sample document with the optional schema block absent. -/
def sampleModelNoSchema : _EsDataProduct :=
  { sampleModel with schema_ := none }

/-- A basic schema-property entry for the key `age`. -/
def sampleBasicAge : _EsSchemaProperty :=
  { type := "int", description := "age" }

/-- A schema block whose `properties` map holds the key `age` that the
`x-context` map lacks. -/
def sampleSchemaMissingX : _EsSchema :=
  { properties := [("age", sampleBasicAge)], x_context := [] }

/-- The sample document with a schema block whose `properties` map holds the
key `age` that the `x-context` map lacks. -/
def sampleModelMissingX : _EsDataProduct :=
  { sampleModel with schema_ := some sampleSchemaMissingX }

/-! ## Structure lemmas about the generator -/

theorem generate_mcp_eq_some (m : _EsDataProduct) (exists_ : String → Bool)
    (now : Nat) (props : List EsSchemaProperty)
    (h : m.get_data_product_schema_properties = some props) :
    m.generate_mcp exists_ now =
      some (m.generate_domain_mcp_if_not_exists exists_
        ++ m.generate_datasets_mcps_if_not_exists exists_ now props
        ++ m.generate_tail props) := by
  unfold _EsDataProduct.generate_mcp
  rw [h]
  rfl

theorem mem_generate_domain (m : _EsDataProduct) (exists_ : String → Bool)
    (r : ChangeRecord) (h : r ∈ m.generate_domain_mcp_if_not_exists exists_) :
    r = .domainProperties m.get_data_product_domain_urn
      m.get_data_product_domain := by
  unfold _EsDataProduct.generate_domain_mcp_if_not_exists at h
  by_cases hex : exists_ m.get_data_product_domain_urn
  · simp [hex] at h
  · simp [hex] at h
    exact h

theorem mem_generate_datasets (m : _EsDataProduct) (exists_ : String → Bool)
    (now : Nat) (props : List EsSchemaProperty) (r : ChangeRecord)
    (h : r ∈ m.generate_datasets_mcps_if_not_exists exists_ now props) :
    (∃ ds ∈ m.output_ports,
        r = .datasetProperties ds.get_urn ds.get_fully_qualified_name
          m.get_data_product_custom_properties
      ∨ r = .schemaMetadata ds.get_urn
          ("schema_" ++ ds.get_fully_qualified_name)
          (make_data_platform_urn "databricks") 0 "" ""
          (m.schema_fields now props))
  ∨ (∃ p ∈ props,
        r = .glossaryTermEvent p.get_term_urn p.get_term_name
          termPlaceholderText termPlaceholderText p.get_term_browse_path
      ∨ r = .domains p.get_term_urn [m.get_data_product_domain_urn]) := by
  unfold _EsDataProduct.generate_datasets_mcps_if_not_exists at h
  rcases List.mem_append.mp h with h1 | h1
  · left
    rcases List.mem_flatMap.mp h1 with ⟨ds, hds, hr⟩
    refine ⟨ds, hds, ?_⟩
    by_cases hex : exists_ ds.get_urn
    · simp [hex] at hr
    · simp [hex] at hr
      exact hr
  · right
    rcases List.mem_flatMap.mp h1 with ⟨p, hp, hr⟩
    refine ⟨p, hp, ?_⟩
    by_cases hex : exists_ p.get_term_urn
    · simp [hex] at hr
    · simp [hex] at hr
      exact hr

theorem mem_generate_tail (m : _EsDataProduct) (props : List EsSchemaProperty)
    (r : ChangeRecord) (h : r ∈ m.generate_tail props) :
    r = .dataProductProperties m.get_data_product_urn
        m.get_data_product_display_name m.get_data_product_description
        m.get_data_product_dataset_urns m.get_data_product_custom_properties
  ∨ r = .domains m.get_data_product_urn [m.get_data_product_domain_urn]
  ∨ r = .ownership m.get_data_product_urn
        (m.get_data_product_owners.map fun o => (make_user_urn o, "BUSINESS_OWNER"))
  ∨ r = .status m.get_data_product_urn false
  ∨ r = .genericSchemaAspect "dataProduct" m.get_data_product_urn "UPSERT"
        "esDataProductSchema" "application/json" "esDataProductSchemaProperties"
        (props.map fun p => p.patched_copy.dict_by_alias) := by
  unfold _EsDataProduct.generate_tail at h
  simpa using h

/-! ## The claims -/

/-- C2, counterexample: for the property with
`propertyUri = "https://ontology.org/terms/customer/email"`, the claim that
the term name is `email`, the browse path is `["terms", "customer"]` AND the
identifier embedded in the glossary-term URN is `email` is false: the source
embeds the whole sanitized path, so the URN is
`urn:li:glossaryTerm:terms_customer_email`, not `urn:li:glossaryTerm:email`. -/
theorem C2_term_id_counterexample :
    ¬ (emailProp.get_term_name = "email"
       ∧ emailProp.get_term_browse_path = ["terms", "customer"]
       ∧ emailProp.get_term_urn = make_term_urn "email") := by
  decide

/-- C2 (amended): for a schema property whose annotation URI is
`https://ontology.org/terms/customer/email`, the derived term name is
`email`, the derived browse path is `["terms", "customer"]`, and the value
embedded in the glossary-term URN is the full sanitized path
`terms_customer_email` (the source applies `replace("/", "_")` to the whole
URI path, not to its last segment). -/
theorem C2_term_identity (p : EsSchemaProperty)
    (h : p.property_uri = "https://ontology.org/terms/customer/email") :
    p.get_term_name = "email"
  ∧ p.get_term_browse_path = ["terms", "customer"]
  ∧ p.get_term_urn = make_term_urn "terms_customer_email" := by
  have ht : p.get_term = "terms/customer/email" := by
    unfold EsSchemaProperty.get_term
    rw [h]
    decide
  refine ⟨?_, ?_, ?_⟩
  · unfold EsSchemaProperty.get_term_name
    rw [ht]
    decide
  · unfold EsSchemaProperty.get_term_browse_path
    rw [ht]
    decide
  · unfold EsSchemaProperty.get_term_urn
    rw [ht]
    decide

/-- C2, witness: the amended statement at the concrete property. -/
theorem C2_term_identity_witness :
    emailProp.get_term_name = "email"
  ∧ emailProp.get_term_browse_path = ["terms", "customer"]
  ∧ emailProp.get_term_urn = make_term_urn "terms_customer_email" :=
  C2_term_identity emailProp rfl

/-- C8: the data-product identifier derived from
`https://example.com/products/foo bar` is `products_foo_bar` (URI path
extracted, outer slashes stripped, maximal non-word runs collapsed to single
underscores), and the derivation is a pure function of the raw identifier
string: any two parsed records with the same raw `dataProductId` derive the
same identifier. -/
theorem C8_dataproduct_id_sanitization (m m2 : _EsDataProduct)
    (h : m.data_product_id = "https://example.com/products/foo bar")
    (h2 : m2.data_product_id = m.data_product_id) :
    m.get_data_product_urn = "urn:li:dataProduct:products_foo_bar"
  ∧ m2.get_data_product_urn = m.get_data_product_urn := by
  constructor
  · unfold _EsDataProduct.get_data_product_urn
    rw [h]
    decide
  · unfold _EsDataProduct.get_data_product_urn
    rw [h2]

/-- C8, witness: the statement at the concrete sample document. -/
theorem C8_dataproduct_id_sanitization_witness :
    sampleModel.get_data_product_urn = "urn:li:dataProduct:products_foo_bar"
  ∧ sampleModel.get_data_product_urn = sampleModel.get_data_product_urn :=
  C8_dataproduct_id_sanitization sampleModel sampleModel rfl rfl

/-- C10: the join of a `properties` entry and its `x-context` entry always
succeeds and produces exactly: the name; the basic type and description; the
annotation string fields verbatim; the two boolean flags round-tripped
through their Python string forms (`str` then the pydantic bool validator,
the identity); and — notably — `complianceRequirements` and
`transformations` as single strings equal to the Python `str` rendering of
the source lists, not as lists. -/
theorem C10_join_stringified_fields (name : String) (v : _EsSchemaProperty)
    (x : _EsSchemaXProperty) :
    joinProperty name v x = some
      { name := name
        description := v.description
        type := v.type
        property_uri := x.property_uri
        relation_type := x.relation_type
        required := x.required
        is_primary_id := x.is_primary_id
        compliance_requirements := pyStrList x.compliance_requirements
        transformations := pyStrList x.transformations } := by
  unfold joinProperty
  cases hb : x.required <;> cases hp : x.is_primary_id <;> rfl

/-- When some key of the `properties` map is missing from the `x-context`
map, the whole join fails. -/
theorem joinAll_eq_none_of_missing (ctx : List (String × _EsSchemaXProperty))
    (l : List (String × _EsSchemaProperty)) (name : String)
    (v : _EsSchemaProperty) (hmem : (name, v) ∈ l)
    (hmiss : ctx.lookup name = none) :
    joinAll ctx l = none := by
  induction l with
  | nil => simp at hmem
  | cons hd tl ih =>
    obtain ⟨hn, hv⟩ := hd
    rcases List.mem_cons.mp hmem with heq | htl
    · obtain ⟨rfl, rfl⟩ := Prod.mk.injEq .. ▸ heq
      unfold joinAll
      rw [hmiss]
    · unfold joinAll
      cases hctx : ctx.lookup hn with
      | none => rfl
      | some x =>
        show (match joinProperty hn hv x with
          | none => none
          | some p =>
            match joinAll ctx tl with
            | none => none
            | some ps => some (p :: ps)) = none
        simp only [ih htl]
        cases joinProperty hn hv x <;> rfl

/-- C4: when the schema block's `properties` map holds a key that the
`x-context` map lacks, normalization fails fatally (the uncaught lookup
failure, modelled as `none`): no partial list of normalized schema
properties is returned. -/
theorem C4_missing_xcontext_fatal (m : _EsDataProduct) (s : _EsSchema)
    (name : String) (v : _EsSchemaProperty)
    (hs : m.schema_ = some s) (hmem : (name, v) ∈ s.properties)
    (hmiss : s.x_context.lookup name = none) :
    m.get_data_product_schema_properties = none := by
  unfold _EsDataProduct.get_data_product_schema_properties
  rw [hs]
  exact joinAll_eq_none_of_missing s.x_context s.properties name v hmem hmiss

/-- C4, witness: the statement at the concrete document whose `properties`
map holds `age` while its `x-context` map is empty. -/
theorem C4_missing_xcontext_fatal_witness :
    sampleModelMissingX.get_data_product_schema_properties = none :=
  C4_missing_xcontext_fatal sampleModelMissingX sampleSchemaMissingX "age"
    sampleBasicAge rfl (by decide) rfl

/-- C5: the custom-properties map never holds the keys `schema`,
`outputPorts` or `dataProductId`; its keys are exactly the remaining
top-level dict keys in field order; and each remaining top-level field
appears with its value rendered by Python `str` (the identity on strings,
the bracketed repr rendering on the list fields). -/
theorem C5_custom_properties (m : _EsDataProduct) :
    (m.get_data_product_custom_properties.lookup "schema" = none
     ∧ m.get_data_product_custom_properties.lookup "outputPorts" = none
     ∧ m.get_data_product_custom_properties.lookup "dataProductId" = none)
  ∧ m.get_data_product_custom_properties.map Prod.fst
      = _EsDataProduct.dict_by_alias_keys.filter
          (fun k => ¬ (k = "schema" ∨ k = "outputPorts" ∨ k = "dataProductId"))
  ∧ m.get_data_product_custom_properties =
      [ ("name", m.name), ("description", m.description),
        ("version", m.version), ("domain", m.domain),
        ("dataAlignmentType", m.data_alignment_type),
        ("sourceSystems", pyStrList m.source_systems),
        ("processing", m.processing), ("framework", m.framework),
        ("dataContract", m.data_contract), ("SLAs", m.slas),
        ("useCases", pyStrList m.use_cases),
        ("subjectMatterExperts", pyStrList m.subject_matter_experts),
        ("countryOfOrigin", pyStrList m.country_of_origin),
        ("dataClassification", m.data_classification),
        ("complianceRequirements", pyStrList m.compliance_requirements),
        ("acceptableUse", m.acceptable_use), ("createdBy", m.created_by),
        ("lastModified", m.last_modified),
        ("updateFrequency", m.update_frequency) ] := by
  exact ⟨⟨rfl, rfl, rfl⟩, rfl, rfl⟩

/-- Mapping `Option.map` over a present value. -/
theorem option_map_some {α β : Type} (f : α → β) (a : α) :
    (some a).map f = some (f a) := rfl

/-- C1, counterexample: on the concrete minimal document (one output port,
one schema property whose annotation URI path has two segments) with an
all-false oracle, the generated kinds are NOT in the claimed order — the
glossary-term records are yielded inside the dataset step, before the
data-product records, not after the schema-aspect record. -/
theorem C1_claimed_order_counterexample :
    (sampleModel.generate_mcp (fun _ => false) 0).map
        (List.map ChangeRecord.kind) ≠
      some [.domainCreation, .datasetProps, .schemaMeta, .dataProductProps,
            .domainAssoc, .ownershipRec, .statusRec, .schemaAspect,
            .termEvent, .domainAssoc] := by
  decide

/-- C1 (amended): for a minimal valid document with exactly one output port
and exactly one normalized schema property, and an oracle answering false
everywhere, generation yields exactly 10 records in this relative order:
domain, dataset properties, dataset schema metadata, glossary-term
definition, glossary-term domain association, data-product properties,
data-product domain association, data-product ownership, data-product
status, schema-aspect blob. -/
theorem C1_minimal_document_order (m : _EsDataProduct) (ex : String → Bool)
    (now : Nat) (op : _EsOutputPorts) (p : EsSchemaProperty)
    (hports : m.output_ports = [op])
    (hprops : m.get_data_product_schema_properties = some [p])
    (hex : ∀ id, ex id = false) :
    (m.generate_mcp ex now).map (List.map ChangeRecord.kind) =
      some [.domainCreation, .datasetProps, .schemaMeta, .termEvent,
            .domainAssoc, .dataProductProps, .domainAssoc, .ownershipRec,
            .statusRec, .schemaAspect] := by
  rw [generate_mcp_eq_some m ex now [p] hprops]
  simp [_EsDataProduct.generate_domain_mcp_if_not_exists,
        _EsDataProduct.generate_datasets_mcps_if_not_exists,
        _EsDataProduct.generate_tail, hports, hex, ChangeRecord.kind]

/-- C1, witness: the amended order at the concrete minimal document. -/
theorem C1_minimal_document_order_witness :
    (sampleModel.generate_mcp (fun _ => false) 0).map
        (List.map ChangeRecord.kind) =
      some [.domainCreation, .datasetProps, .schemaMeta, .termEvent,
            .domainAssoc, .dataProductProps, .domainAssoc, .ownershipRec,
            .statusRec, .schemaAspect] :=
  C1_minimal_document_order sampleModel (fun _ => false) 0 samplePort
    sampleJoined rfl (by decide) (fun _ => rfl)

/-- C6: on any valid document (normalization succeeds), the generated
sequence holds exactly one domain-creation record when the oracle does not
know the domain identifier and none when it does; when present, the
domain-creation record is the first record of the sequence. -/
theorem C6_domain_create_if_absent (m : _EsDataProduct) (ex : String → Bool)
    (now : Nat) (props : List EsSchemaProperty)
    (h : m.get_data_product_schema_properties = some props) :
    (m.generate_mcp ex now).map (List.countP ChangeRecord.isDomainCreation) =
      some (if ex m.get_data_product_domain_urn then 0 else 1)
  ∧ (ex m.get_data_product_domain_urn = false →
      (m.generate_mcp ex now).map List.head? =
        some (some (.domainProperties m.get_data_product_domain_urn
          m.get_data_product_domain))) := by
  have hds : (m.generate_datasets_mcps_if_not_exists ex now props).countP
      ChangeRecord.isDomainCreation = 0 := by
    rw [List.countP_eq_zero]
    intro r hr
    rcases mem_generate_datasets m ex now props r hr with
      ⟨ds, _, h1 | h1⟩ | ⟨p, _, h1 | h1⟩ <;>
      subst h1 <;> simp [ChangeRecord.isDomainCreation]
  have htl : (m.generate_tail props).countP ChangeRecord.isDomainCreation = 0 := by
    rw [List.countP_eq_zero]
    intro r hr
    rcases mem_generate_tail m props r hr with h1 | h1 | h1 | h1 | h1 <;>
      subst h1 <;> simp [ChangeRecord.isDomainCreation]
  rw [generate_mcp_eq_some m ex now props h]
  constructor
  · rw [option_map_some, Option.some.injEq, List.countP_append,
        List.countP_append, hds, htl]
    unfold _EsDataProduct.generate_domain_mcp_if_not_exists
    by_cases hex : ex m.get_data_product_domain_urn <;>
      simp [hex, ChangeRecord.isDomainCreation]
  · intro hex
    unfold _EsDataProduct.generate_domain_mcp_if_not_exists
    simp [hex]

/-- C6, witness: the statement at the concrete document, with the all-true
and the all-false oracles. -/
theorem C6_domain_create_if_absent_witness :
    (sampleModel.generate_mcp (fun _ => true) 0).map
        (List.countP ChangeRecord.isDomainCreation) = some 0
  ∧ (sampleModel.generate_mcp (fun _ => false) 0).map
        (List.countP ChangeRecord.isDomainCreation) = some 1
  ∧ (sampleModel.generate_mcp (fun _ => false) 0).map List.head? =
      some (some (.domainProperties sampleModel.get_data_product_domain_urn
        sampleModel.get_data_product_domain)) :=
  ⟨by simpa using
      (C6_domain_create_if_absent sampleModel (fun _ => true) 0 [sampleJoined]
        (by decide)).1,
   by simpa using
      (C6_domain_create_if_absent sampleModel (fun _ => false) 0 [sampleJoined]
        (by decide)).1,
   (C6_domain_create_if_absent sampleModel (fun _ => false) 0 [sampleJoined]
      (by decide)).2 rfl⟩

/-- The dataset-and-term step depends on the clock reading only through the
audit stamps inside schema-metadata fields. -/
theorem eraseStampTimes_datasets (m : _EsDataProduct) (ex : String → Bool)
    (t₁ t₂ : Nat) (props : List EsSchemaProperty) :
    (m.generate_datasets_mcps_if_not_exists ex t₁ props).map
        ChangeRecord.eraseStampTimes =
      (m.generate_datasets_mcps_if_not_exists ex t₂ props).map
        ChangeRecord.eraseStampTimes := by
  unfold _EsDataProduct.generate_datasets_mcps_if_not_exists
  rw [List.map_append, List.map_append]
  congr 1
  induction m.output_ports with
  | nil => rfl
  | cons ds tl ih =>
    rw [List.flatMap_cons, List.flatMap_cons, List.map_append,
        List.map_append, ih]
    congr 1
    by_cases hex : ex ds.get_urn
    · simp [hex]
    · simp [hex, ChangeRecord.eraseStampTimes, _EsDataProduct.schema_fields,
            SchemaFieldRec.eraseStampTime, _EsDataProduct._mint_auditstamp,
            List.map_map, Function.comp]

/-- C7 (amended): generation is a deterministic function of the parsed
model, the oracle answers and the clock reading; with the same oracle
answers but different clock readings the sequences agree only up to the
audit-stamp times embedded in schema-metadata fields (and are equal once
those times are erased). -/
theorem C7_generation_time_dependence (m : _EsDataProduct)
    (ex : String → Bool) (t₁ t₂ : Nat) :
    (m.generate_mcp ex t₁).map (List.map ChangeRecord.eraseStampTimes) =
      (m.generate_mcp ex t₂).map (List.map ChangeRecord.eraseStampTimes) := by
  cases h : m.get_data_product_schema_properties with
  | none =>
    unfold _EsDataProduct.generate_mcp
    rw [h]
    rfl
  | some props =>
    rw [generate_mcp_eq_some m ex t₁ props h,
        generate_mcp_eq_some m ex t₂ props h, option_map_some,
        option_map_some, Option.some.injEq, List.map_append, List.map_append,
        List.map_append, List.map_append,
        eraseStampTimes_datasets m ex t₁ t₂ props]

/-- C7, counterexample: on the concrete document with the same all-false
oracle, two invocations at different clock readings produce different
sequences (the audit stamps differ), refuting the claim that equal oracle
answers alone force identical sequences. -/
theorem C7_resequencing_counterexample :
    sampleModel.generate_mcp (fun _ => false) 0 ≠
      sampleModel.generate_mcp (fun _ => false) 1 := by
  decide

/-- C9: when the optional schema block is absent, generation still
succeeds: the normalized property list is empty, every schema-metadata
record carries an empty field list, the schema-aspect blob carries an empty
property list, no glossary-term event is emitted, and the only
domain-association record is the data-product one. -/
theorem C9_absent_schema_block (m : _EsDataProduct) (ex : String → Bool)
    (now : Nat) (h : m.schema_ = none) :
    m.get_data_product_schema_properties = some []
  ∧ (m.generate_mcp ex now).map (recordsAll ChangeRecord.emptySchemaShape) =
      some true
  ∧ (m.generate_mcp ex now).map (List.countP ChangeRecord.isDomainAssoc) =
      some 1 := by
  have hprops : m.get_data_product_schema_properties = some [] := by
    unfold _EsDataProduct.get_data_product_schema_properties
    rw [h]
  refine ⟨hprops, ?_, ?_⟩
  · rw [generate_mcp_eq_some m ex now [] hprops, option_map_some,
        Option.some.injEq]
    unfold recordsAll
    rw [List.all_eq_true]
    intro r hr
    rcases List.mem_append.mp hr with hr | hr
    · rcases List.mem_append.mp hr with hr | hr
      · rw [mem_generate_domain m ex r hr]
        rfl
      · rcases mem_generate_datasets m ex now [] r hr with
          ⟨ds, _, h1 | h1⟩ | ⟨p, hp, _⟩
        · subst h1; rfl
        · subst h1; rfl
        · simp at hp
    · rcases mem_generate_tail m [] r hr with h1 | h1 | h1 | h1 | h1 <;>
        subst h1 <;> rfl
  · rw [generate_mcp_eq_some m ex now [] hprops, option_map_some,
        Option.some.injEq, List.countP_append, List.countP_append]
    have h1 : (m.generate_domain_mcp_if_not_exists ex).countP
        ChangeRecord.isDomainAssoc = 0 := by
      unfold _EsDataProduct.generate_domain_mcp_if_not_exists
      by_cases hex : ex m.get_data_product_domain_urn <;>
        simp [hex, ChangeRecord.isDomainAssoc]
    have h2 : (m.generate_datasets_mcps_if_not_exists ex now []).countP
        ChangeRecord.isDomainAssoc = 0 := by
      rw [List.countP_eq_zero]
      intro r hr
      rcases mem_generate_datasets m ex now [] r hr with
        ⟨ds, _, hd1 | hd1⟩ | ⟨p, hp, _⟩
      · subst hd1; simp [ChangeRecord.isDomainAssoc]
      · subst hd1; simp [ChangeRecord.isDomainAssoc]
      · simp at hp
    have h3 : (m.generate_tail []).countP ChangeRecord.isDomainAssoc = 1 := rfl
    rw [h1, h2, h3]

/-- C9, witness: the statement at the concrete document without a schema
block. -/
theorem C9_absent_schema_block_witness :
    sampleModelNoSchema.get_data_product_schema_properties = some []
  ∧ (sampleModelNoSchema.generate_mcp (fun _ => false) 0).map
      (recordsAll ChangeRecord.emptySchemaShape) = some true
  ∧ (sampleModelNoSchema.generate_mcp (fun _ => false) 0).map
      (List.countP ChangeRecord.isDomainAssoc) = some 1 :=
  C9_absent_schema_block sampleModelNoSchema (fun _ => false) 0 rfl

/-- C3, counterexample: for the property with URI
`https://ontology.org/terms/customer/email`, the patched display link does
not end in `/glossaryTerm/<termId>` for either reading of the term
identifier (`email` as claimed in the spec example, or the corrected
`terms_customer_email`): the source appends the full glossary-term URN after
`/glossaryTerm/`, so no choice of catalog base URL matches the claimed
form. -/
theorem C3_link_form_counterexample :
    pyEndsWith "/glossaryTerm/email"
        emailProp.patched_copy.dict_by_alias.propertyUri = false
  ∧ pyEndsWith "/glossaryTerm/terms_customer_email"
        emailProp.patched_copy.dict_by_alias.propertyUri = false := by
  decide

/-- C3 (amended): the display transform patches each property into a copy
whose serialized URI field is `http://localhost:9002/glossaryTerm/` followed
by the full glossary-term URN (not the bare term identifier), leaving every
other serialized field and the original property record unchanged; the
schema-aspect blob serializes exactly the patched copies, while the term
identities in schema-metadata fields and glossary-term events are always
derived from the original, unpatched URI. -/
theorem C3_display_patching (m : _EsDataProduct) (ex : String → Bool)
    (now : Nat) (props : List EsSchemaProperty)
    (h : m.get_data_product_schema_properties = some props) :
    m.get_data_product_schema_properties_patched =
      some (props.map EsSchemaProperty.patched_copy)
  ∧ props.all EsSchemaProperty.patchedDisplayCheck = true
  ∧ (m.generate_mcp ex now).map
      (recordsAll (ChangeRecord.usesOriginalTermIdentities props)) = some true := by
  refine ⟨?_, ?_, ?_⟩
  · unfold _EsDataProduct.get_data_product_schema_properties_patched
    rw [h]
    rfl
  · rw [List.all_eq_true]
    intro p _
    unfold EsSchemaProperty.patchedDisplayCheck
    simp [EsSchemaProperty.patched_copy, EsSchemaProperty.copy_update_propertyUri,
          EsSchemaPropertyCopied.dict_by_alias]
  · rw [generate_mcp_eq_some m ex now props h, option_map_some,
        Option.some.injEq]
    unfold recordsAll
    rw [List.all_eq_true]
    intro r hr
    rcases List.mem_append.mp hr with hr | hr
    · rcases List.mem_append.mp hr with hr | hr
      · rw [mem_generate_domain m ex r hr]
        rfl
      · rcases mem_generate_datasets m ex now props r hr with
          ⟨ds, _, h1 | h1⟩ | ⟨p, hp, h1 | h1⟩
        · subst h1; rfl
        · subst h1
          unfold ChangeRecord.usesOriginalTermIdentities
          simp [_EsDataProduct.schema_fields, List.map_map, Function.comp]
        · subst h1
          unfold ChangeRecord.usesOriginalTermIdentities
          rw [List.any_eq_true]
          exact ⟨p, hp, by simp⟩
        · subst h1; rfl
    · rcases mem_generate_tail m props r hr with h1 | h1 | h1 | h1 | h1 <;>
        subst h1 <;>
        first
          | rfl
          | (unfold ChangeRecord.usesOriginalTermIdentities; simp)

/-- C3, witness: the amended statement at the concrete document. -/
theorem C3_display_patching_witness :
    sampleModel.get_data_product_schema_properties_patched =
      some ([sampleJoined].map EsSchemaProperty.patched_copy)
  ∧ [sampleJoined].all EsSchemaProperty.patchedDisplayCheck = true
  ∧ (sampleModel.generate_mcp (fun _ => false) 0).map
      (recordsAll (ChangeRecord.usesOriginalTermIdentities [sampleJoined])) =
        some true :=
  C3_display_patching sampleModel (fun _ => false) 0 [sampleJoined] (by decide)

end EsDataProduct
